import Mathlib

/-!
Verification development for the feed-recommendation service (`src/app.py`).

The program ranks candidate posts for a user by a composite of TF-IDF cosine
similarity, an engagement ratio, and a recency score.  This file gives a
shallow embedding of the scoring pipeline:

* the text analyzer and TF-IDF vectorizer (`tokenize`, `vocab`, `tf`, `idf`,
  `tfidfRow`), modelling `sklearn.feature_extraction.text.TfidfVectorizer`
  with its default settings plus `stop_words="english"`, exactly the
  configuration used by `recommend_posts_for_user`;
* cosine similarity (`cosSim`, `similarity`), modelling
  `sklearn.metrics.pairwise.cosine_similarity` applied to the TF-IDF rows;
* timestamp parsing and day arithmetic (`parseTimestamp`, `days_since`),
  modelling `datetime.fromisoformat` / `datetime.strptime` on naive
  timestamps and Python `timedelta.days` floor semantics;
* the per-post scoring and the final stable descending sort (`scorePost`,
  `recommend`), including Python `round` (half-to-even) for the displayed
  fields.

Real-number arithmetic of the Python floats is idealized as `ℝ`; machine
integers are `ℤ`/`ℕ`.  Timestamps are microseconds since the epoch.
-/

namespace FeedRec

/-- Modelled from scikit-learn `ENGLISH_STOP_WORDS`
(`sklearn/feature_extraction/_stop_words.py`), the list activated by
`TfidfVectorizer(stop_words="english")` in `recommend_posts_for_user`. -/
def englishStopWords : List String :=
  ["a", "about", "above", "across", "after", "afterwards", "again", "against",
   "all", "almost", "alone", "along", "already", "also", "although", "always",
   "am", "among", "amongst", "amoungst", "amount", "an", "and", "another",
   "any", "anyhow", "anyone", "anything", "anyway", "anywhere", "are",
   "around", "as", "at", "back", "be", "became", "because", "become",
   "becomes", "becoming", "been", "before", "beforehand", "behind", "being",
   "below", "beside", "besides", "between", "beyond", "bill", "both",
   "bottom", "but", "by", "call", "can", "cannot", "cant", "co", "con",
   "could", "couldnt", "cry", "de", "describe", "detail", "do", "done",
   "down", "due", "during", "each", "eg", "eight", "either", "eleven",
   "else", "elsewhere", "empty", "enough", "etc", "even", "ever", "every",
   "everyone", "everything", "everywhere", "except", "few", "fifteen",
   "fifty", "fill", "find", "fire", "first", "five", "for", "former",
   "formerly", "forty", "found", "four", "from", "front", "full", "further",
   "get", "give", "go", "had", "has", "hasnt", "have", "he", "hence", "her",
   "here", "hereafter", "hereby", "herein", "hereupon", "hers", "herself",
   "him", "himself", "his", "how", "however", "hundred", "i", "ie", "if",
   "in", "inc", "indeed", "interest", "into", "is", "it", "its", "itself",
   "keep", "last", "latter", "latterly", "least", "less", "ltd", "made",
   "many", "may", "me", "meanwhile", "might", "mill", "mine", "more",
   "moreover", "most", "mostly", "move", "much", "must", "my", "myself",
   "name", "namely", "neither", "never", "nevertheless", "next", "nine",
   "no", "nobody", "none", "noone", "nor", "not", "nothing", "now",
   "nowhere", "of", "off", "often", "on", "once", "one", "only", "onto",
   "or", "other", "others", "otherwise", "our", "ours", "ourselves", "out",
   "over", "own", "part", "per", "perhaps", "please", "put", "rather", "re",
   "same", "see", "seem", "seemed", "seeming", "seems", "serious", "several",
   "she", "should", "show", "side", "since", "sincere", "six", "sixty",
   "so", "some", "somehow", "someone", "something", "sometime", "sometimes",
   "somewhere", "still", "such", "system", "take", "ten", "than", "that",
   "the", "their", "them", "themselves", "then", "thence", "there",
   "thereafter", "thereby", "therefore", "therein", "thereupon", "these",
   "they", "thick", "thin", "third", "this", "those", "though", "three",
   "through", "throughout", "thru", "thus", "to", "together", "too", "top",
   "toward", "towards", "twelve", "twenty", "two", "un", "under", "until",
   "up", "upon", "us", "very", "via", "was", "we", "well", "were", "what",
   "whatever", "when", "whence", "whenever", "where", "whereafter",
   "whereas", "whereby", "wherein", "whereupon", "wherever", "whether",
   "which", "while", "whither", "who", "whoever", "whole", "whom", "whose",
   "why", "will", "with", "within", "without", "would", "yet", "you",
   "your", "yours", "yourself", "yourselves"]

/-- Word character of the default `token_pattern` regex `\b\w\w+\b`
(ASCII scope of `\w`: letters, digits, underscore). -/
def isWordChar (c : Char) : Bool := c.isAlphanum || c = '_'

/-- Split a character list into maximal runs of word characters
(everything else is a boundary), as regex `\w\w+` matching does. -/
def splitRuns : List Char → List Char → List (List Char)
  | [], cur => if cur = [] then [] else [cur.reverse]
  | c :: rest, cur =>
    if isWordChar c then splitRuns rest (c :: cur)
    else if cur = [] then splitRuns rest [] else cur.reverse :: splitRuns rest []

/-- Analyzer of `TfidfVectorizer(stop_words="english")`: lower-case, extract
maximal alphanumeric runs of length at least two (default `token_pattern`),
then drop English stop words. -/
def tokenize (s : String) : List String :=
  ((splitRuns (s.toList.map Char.toLower) []).filter (fun run => 2 ≤ run.length)).map
    (fun run => String.mk run) |>.filter (fun t => ¬ englishStopWords.contains t)

/-- Concatenation of the token streams of all corpus documents. -/
def allTokens : List String → List String
  | [] => []
  | d :: ds => tokenize d ++ allTokens ds

/-- Vocabulary fitted on the corpus: the distinct surviving tokens.
`fit_transform` raises `ValueError` when this is empty (see `recommend`). -/
def vocab (corp : List String) : List String := (allTokens corp).dedup

/-- Raw term frequency of term `t` in document `doc` (sklearn default:
raw counts, no sublinear scaling). -/
def tf (doc : String) (t : String) : ℕ := (tokenize doc).count t

/-- Document frequency of term `t` in the corpus. -/
def df (corp : List String) (t : String) : ℕ :=
  (corp.filter (fun d => decide (0 < tf d t))).length

/-- Smoothed inverse document frequency, sklearn default `smooth_idf=True`:
`ln((1 + N) / (1 + df(t))) + 1`. -/
noncomputable def idf (corp : List String) (t : String) : ℝ :=
  Real.log ((1 + (corp.length : ℝ)) / (1 + (df corp t : ℝ))) + 1

/-- Unnormalized TF-IDF weight of term `t` for document `doc`. -/
noncomputable def rowWeight (corp : List String) (doc : String) (t : String) : ℝ :=
  (tf doc t : ℝ) * idf corp t

/-- Squared Euclidean norm of the document's weight row over the vocabulary. -/
noncomputable def rowNormSq (corp : List String) (doc : String) : ℝ :=
  ∑ t in (vocab corp).toFinset, rowWeight corp doc t ^ 2

/-- Euclidean norm of the document's weight row. -/
noncomputable def rowNorm (corp : List String) (doc : String) : ℝ :=
  Real.sqrt (rowNormSq corp doc)

/-- L2-normalized TF-IDF row (sklearn default `norm="l2"`); a row with zero
norm is left as the zero vector, as `sklearn.preprocessing.normalize` does. -/
noncomputable def tfidfRow (corp : List String) (doc : String) (t : String) : ℝ :=
  if rowNorm corp doc = 0 then 0 else rowWeight corp doc t / rowNorm corp doc

/-- Cosine similarity of two documents' TF-IDF rows, the dot product of the
L2-normalized rows (`sklearn.metrics.pairwise.cosine_similarity`; zero rows
give similarity 0). -/
noncomputable def cosSim (corp : List String) (d1 d2 : String) : ℝ :=
  ∑ t in (vocab corp).toFinset, tfidfRow corp d1 t * tfidfRow corp d2 t

/-- Similarity of the user row (corpus index 0) with candidate `i`
(corpus index `i + 1`), as in `cosine_similarity(user_vec, post_vecs)`. -/
noncomputable def similarity (corp : List String) (i : ℕ) : ℝ :=
  cosSim corp (corp.getD 0 "") (corp.getD (i + 1) "")

/-! ### Timestamp parsing and day arithmetic (`days_since`) -/

/-- Numeric value of a decimal digit character. -/
def digToNat (c : Char) : ℕ := c.toNat - 48

/-- Natural number denoted by a digit string (most significant first). -/
def natOfDigits (l : List Char) : ℕ := l.foldl (fun a c => 10 * a + digToNat c) 0

/-- Whether every character of the list is a decimal digit. -/
def allDigits (l : List Char) : Bool := l.all Char.isDigit

/-- Gregorian leap-year test. -/
def isLeap (y : ℕ) : Bool := y % 4 = 0 && (y % 100 ≠ 0 || y % 400 = 0)

/-- Number of days in the given month. -/
def daysInMonth (y m : ℕ) : ℕ :=
  if m = 2 then (if isLeap y then 29 else 28)
  else if m = 4 ∨ m = 6 ∨ m = 9 ∨ m = 11 then 30 else 31

/-- Validity check applied by the `datetime` constructor: year in 1..9999,
month in 1..12, day within the month. -/
def validDate (y m d : ℕ) : Bool :=
  1 ≤ y && y ≤ 9999 && 1 ≤ m && m ≤ 12 && 1 ≤ d && d ≤ daysInMonth y m

/-- Days from the epoch 1970-01-01 to the civil date `(y, m, d)`
(standard days-from-civil calendar algorithm, exact for the proleptic
Gregorian calendar used by Python `datetime`). -/
def daysFromCivil (y m d : ℕ) : ℤ :=
  let y' : ℤ := if m ≤ 2 then (y : ℤ) - 1 else (y : ℤ)
  let era : ℤ := Int.fdiv y' 400
  let yoe : ℤ := y' - era * 400
  let mp : ℕ := (m + 9) % 12
  let doy : ℤ := ((153 * mp + 2) / 5 : ℕ) + (d : ℤ) - 1
  let doe : ℤ := yoe * 365 + Int.fdiv yoe 4 - Int.fdiv yoe 100 + doy
  era * 146097 + doe - 719468

/-- Microseconds from the epoch for a civil date with time of day. -/
def dateMicros (y m d hh mi ss us : ℕ) : ℤ :=
  (daysFromCivil y m d * 86400 + (hh : ℤ) * 3600 + (mi : ℤ) * 60 + (ss : ℤ)) * 1000000
    + (us : ℤ)

/-- Time-of-day part accepted by `datetime.fromisoformat`:
`HH[:MM[:SS[.f+]]]` with 1 to 6 fractional digits. -/
def parseTimeOfDay : List Char → Option (ℕ × ℕ × ℕ × ℕ)
  | h1 :: h2 :: rest =>
    if allDigits [h1, h2] then
      let hh := natOfDigits [h1, h2]
      if hh ≤ 23 then
        match rest with
        | [] => some (hh, 0, 0, 0)
        | ':' :: m1 :: m2 :: rest2 =>
          if allDigits [m1, m2] then
            let mi := natOfDigits [m1, m2]
            if mi ≤ 59 then
              match rest2 with
              | [] => some (hh, mi, 0, 0)
              | ':' :: s1 :: s2 :: rest3 =>
                if allDigits [s1, s2] then
                  let ss := natOfDigits [s1, s2]
                  if ss ≤ 59 then
                    match rest3 with
                    | [] => some (hh, mi, ss, 0)
                    | '.' :: fr =>
                      if allDigits fr ∧ 1 ≤ fr.length ∧ fr.length ≤ 6 then
                        some (hh, mi, ss, natOfDigits fr * 10 ^ (6 - fr.length))
                      else none
                    | _ => none
                  else none
                else none
              | _ => none
            else none
          else none
        | _ => none
      else none
    else none
  | _ => none

/-- Naive-timestamp grammar of `datetime.fromisoformat`:
`YYYY-MM-DD` optionally followed by a single separator character and a time
of day, with calendar validation. -/
def fromisoCore (cs : List Char) : Option ℤ :=
  match cs with
  | y1 :: y2 :: y3 :: y4 :: '-' :: m1 :: m2 :: '-' :: d1 :: d2 :: rest =>
    if allDigits [y1, y2, y3, y4, m1, m2, d1, d2] then
      let y := natOfDigits [y1, y2, y3, y4]
      let m := natOfDigits [m1, m2]
      let d := natOfDigits [d1, d2]
      if validDate y m d then
        match rest with
        | [] => some (dateMicros y m d 0 0 0 0)
        | _sep :: timecs =>
          (parseTimeOfDay timecs).map (fun t => dateMicros y m d t.1 t.2.1 t.2.2.1 t.2.2.2)
      else none
    else none
  | _ => none

/-- Longest prefix of decimal digits and the remainder. -/
def spanDigits : List Char → List Char × List Char
  | [] => ([], [])
  | c :: rest =>
    if c.isDigit then
      let (ds, r) := spanDigits rest
      (c :: ds, r)
    else ([], c :: rest)

/-- Fallback parser `datetime.strptime(date_str, "%Y-%m-%d")`: 1-4 digit
year, dash, 1-2 digit month, dash, 1-2 digit day, whole string consumed,
with calendar validation. -/
def strptimeYmd (cs : List Char) : Option ℤ :=
  let (ys, r1) := spanDigits cs
  if 1 ≤ ys.length ∧ ys.length ≤ 4 then
    match r1 with
    | '-' :: r2 =>
      let (ms, r3) := spanDigits r2
      if 1 ≤ ms.length ∧ ms.length ≤ 2 then
        match r3 with
        | '-' :: r4 =>
          let (ds, r5) := spanDigits r4
          if 1 ≤ ds.length ∧ ds.length ≤ 2 ∧ r5 = [] then
            let y := natOfDigits ys
            let m := natOfDigits ms
            let d := natOfDigits ds
            if validDate y m d then some (dateMicros y m d 0 0 0 0) else none
          else none
        | _ => none
      else none
    | _ => none
  else none

/-- Model of `date_str.replace("Z", "")`: every occurrence of the
single-character pattern `"Z"` is removed. -/
def stripZ (s : String) : String := String.mk (s.toList.filter (fun c => c ≠ 'Z'))

/-- Timestamp parser of `days_since`: try
`datetime.fromisoformat(date_str.replace("Z", ""))` and fall back to
`datetime.strptime(date_str, "%Y-%m-%d")`; `none` models the uncaught
`ValueError` of the fallback. -/
def parseTimestamp (s : String) : Option ℤ :=
  match fromisoCore (stripZ s).toList with
  | some v => some v
  | none => strptimeYmd s.toList

/-- Request-level errors of `recommend_posts_for_user`, the uncaught Python
exceptions: the empty-vocabulary `ValueError` of `fit_transform`, the
zero-sample `ValueError` of `cosine_similarity`, the `ValueError` of
timestamp parsing, and the `ZeroDivisionError` of the recency division. -/
inductive RecErr where
  | emptyVocabulary : RecErr
  | emptyCandidates : RecErr
  | invalidTimestamp : RecErr
  | zeroDivision : RecErr
deriving DecidableEq

/-- Model of `days_since`: parse the creation timestamp, then
`(datetime.now() - date).days + 1`, where Python `timedelta.days` is the
floor of the difference in whole days.  `now` is the evaluation instant in
microseconds. -/
def days_since (date_str : String) (now : ℤ) : Except RecErr ℤ :=
  match parseTimestamp date_str with
  | none => .error .invalidTimestamp
  | some d => .ok (Int.fdiv (now - d) 86400000000 + 1)

/-! ### Data model and ranker (`recommend_posts_for_user`) -/

/-- Candidate post record (pydantic `Post` model); `likes` and `dislikes`
are lists of user identifiers, only their lengths are used. -/
structure Post where
  id : String
  title : String
  description : String
  category : String
  mediaType : Option String := none
  mediaUrl : Option String := none
  likes : List String := []
  dislikes : List String := []
  created_at : String
deriving DecidableEq

/-- User record (pydantic `User` model); only `interests` feeds the core. -/
structure User where
  interests : List String
deriving DecidableEq

/-- One entry of the returned `recommendations` list: the dictionary built
per post, with the four numeric fields already rounded for display. -/
structure ScoredResult where
  post_id : String
  title : String
  description : String
  category : String
  mediaType : Option String
  mediaUrl : Option String
  score : ℝ
  similarity : ℝ
  engagement : ℝ
  recency : ℝ

/-- Model of `" ".join(user["interests"])`. -/
def interestsText (u : User) : String := String.intercalate " " u.interests

/-- Model of the f-string `f"{title} {description} {category}"`. -/
def postDoc (p : Post) : String :=
  p.title ++ " " ++ p.description ++ " " ++ p.category

/-- Corpus of one request: interests text first, then one document per
candidate, in input order. -/
def corpus (u : User) (posts : List Post) : List String :=
  interestsText u :: posts.map postDoc

/-- Engagement component `(likes - 0.5 * dislikes) / (likes + dislikes + 1)`
with `likes`/`dislikes` the list lengths. -/
noncomputable def engagementOf (p : Post) : ℝ :=
  ((p.likes.length : ℝ) - 0.5 * (p.dislikes.length : ℝ)) /
    ((p.likes.length : ℝ) + (p.dislikes.length : ℝ) + 1)

/-- Composite score `0.6 * similarity + 0.3 * engagement + 0.1 * recency`. -/
noncomputable def compositeScore (s e r : ℝ) : ℝ := 0.6 * s + 0.3 * e + 0.1 * r

/-- Round to the nearest integer, ties to the even integer (the rounding
mode of Python `round`). -/
noncomputable def roundHalfEven (x : ℝ) : ℤ :=
  let n := ⌊x⌋
  if x - n < 1 / 2 then n
  else if 1 / 2 < x - n then n + 1
  else if Even n then n else n + 1

/-- Model of Python `round(x, p)` on the idealized reals. -/
noncomputable def pyRound (p : ℕ) (x : ℝ) : ℝ :=
  (roundHalfEven (x * 10 ^ p) : ℝ) / 10 ^ p

/-- Body of the per-post loop of `recommend_posts_for_user`: compute the
similarity of candidate `i`, the engagement and recency components, the
composite score, and build the result dictionary with the rounded display
values.  `1 / days_since(...)` raises `ZeroDivisionError` when the day count
is zero. -/
noncomputable def scorePost (corp : List String) (now : ℤ) (i : ℕ) (p : Post) :
    Except RecErr ScoredResult :=
  match days_since p.created_at now with
  | .error e => .error e
  | .ok a =>
    if a = 0 then .error .zeroDivision
    else
      let sim := similarity corp i
      let eng := engagementOf p
      let rcy := 1 / (a : ℝ)
      let score := compositeScore sim eng rcy
      .ok { post_id := p.id, title := p.title, description := p.description,
            category := p.category, mediaType := p.mediaType, mediaUrl := p.mediaUrl,
            score := pyRound 4 score, similarity := pyRound 3 sim,
            engagement := pyRound 3 eng, recency := pyRound 3 rcy }

/-- Sequential traversal of the candidate list with its enumeration index;
the first raised error aborts the loop, as in Python. -/
noncomputable def mapIdxE (f : ℕ → Post → Except RecErr ScoredResult) :
    ℕ → List Post → Except RecErr (List ScoredResult)
  | _, [] => .ok []
  | i, p :: ps =>
    match f i p with
    | .error e => .error e
    | .ok r =>
      match mapIdxE f (i + 1) ps with
      | .error e => .error e
      | .ok rs => .ok (r :: rs)

/-- Sort relation of `recommendations.sort(key=lambda x: x["score"],
reverse=True)`: `a` may precede `b` iff `b`'s stored (rounded) score is not
larger.  A stable sort with this relation is exactly Python's stable
descending sort. -/
def scoreRel (a b : ScoredResult) : Prop := b.score ≤ a.score

noncomputable instance : DecidableRel scoreRel := fun a b => Real.decidableLE b.score a.score

/-- Model of `recommend_posts_for_user(user, posts)` at evaluation instant
`now`.  Stages in program order: `fit_transform` (raises on an empty
vocabulary), `cosine_similarity` (raises on an empty candidate matrix, the
zero-sample check of `sklearn.utils.check_array`), the per-post scoring
loop, and the final stable sort on the stored rounded score. -/
noncomputable def recommend (u : User) (posts : List Post) (now : ℤ) :
    Except RecErr (List ScoredResult) :=
  let corp := corpus u posts
  if vocab corp = [] then .error .emptyVocabulary
  else if posts = [] then .error .emptyCandidates
  else
    match mapIdxE (scorePost corp now) 0 posts with
    | .error e => .error e
    | .ok entries => .ok (List.insertionSort scoreRel entries)

instance : IsTotal ScoredResult scoreRel := ⟨fun a b => le_total b.score a.score⟩

instance : IsTrans ScoredResult scoreRel := ⟨fun _ _ _ h1 h2 => le_trans h2 h1⟩

/-! ### Concrete inputs used in the witnesses and counterexamples

Demonstration request: two candidates share the creation date and have no
token in common with the user's interests, so both similarities are 0;
their like counts (200 vs 201) make the unrounded composite scores differ
only in the fifth decimal digit, while both round to the same displayed
score 0.3985. -/

/-- Evaluation instant: 2025-11-01, 12:00:00 local time, in microseconds. -/
def demoNow : ℤ := (daysFromCivil 2025 11 1 * 86400 + 43200) * 1000000

/-- Demonstration user, interested in a token absent from all candidates. -/
def demoUser : User := { interests := ["alpha"] }

/-- First candidate: 200 likes, created on the evaluation date. -/
def postA : Post :=
  { id := "A", title := "bravo", description := "bravo", category := "bravo",
    likes := List.replicate 200 "u", dislikes := [], created_at := "2025-11-01" }

/-- Second candidate: 201 likes, otherwise identical text and date. -/
def postB : Post :=
  { id := "B", title := "bravo", description := "bravo", category := "bravo",
    likes := List.replicate 201 "u", dislikes := [], created_at := "2025-11-01" }

/-- Corpus of the demonstration request. -/
def demoCorp : List String := corpus demoUser [postA, postB]

/-- Result entry produced for `postA` (fields as `scorePost` builds them). -/
noncomputable def resA : ScoredResult :=
  { post_id := "A", title := "bravo", description := "bravo", category := "bravo",
    mediaType := none, mediaUrl := none,
    score := pyRound 4 (compositeScore (similarity demoCorp 0) (engagementOf postA)
      (1 / ((1 : ℤ) : ℝ))),
    similarity := pyRound 3 (similarity demoCorp 0),
    engagement := pyRound 3 (engagementOf postA),
    recency := pyRound 3 (1 / ((1 : ℤ) : ℝ)) }

/-- Result entry produced for `postB`. -/
noncomputable def resB : ScoredResult :=
  { post_id := "B", title := "bravo", description := "bravo", category := "bravo",
    mediaType := none, mediaUrl := none,
    score := pyRound 4 (compositeScore (similarity demoCorp 1) (engagementOf postB)
      (1 / ((1 : ℤ) : ℝ))),
    similarity := pyRound 3 (similarity demoCorp 1),
    engagement := pyRound 3 (engagementOf postB),
    recency := pyRound 3 (1 / ((1 : ℤ) : ℝ)) }

/-- User with an empty interest list (interest text is the empty string). -/
def emptyUser : User := { interests := [] }

/-- Candidate with empty text fields: its document is `"  "`, which has no
tokens at all. -/
def emptyPost : Post :=
  { id := "E", title := "", description := "", category := "",
    likes := [], dislikes := [], created_at := "2025-11-01" }

/-- Candidate whose creation date parses in neither format. -/
def postBad : Post :=
  { id := "X", title := "bravo", description := "bravo", category := "bravo",
    likes := [], dislikes := [], created_at := "not-a-date" }

/-- Candidate created 1.5 days after the evaluation instant `demoNow`. -/
def postF : Post :=
  { id := "F", title := "bravo", description := "bravo", category := "bravo",
    likes := [], dislikes := [], created_at := "2025-11-03T00:00:00" }

/-- Candidate created half a day after the evaluation instant `demoNow`. -/
def postG : Post :=
  { id := "G", title := "bravo", description := "bravo", category := "bravo",
    likes := [], dislikes := [], created_at := "2025-11-02" }

/-- Candidate with dislikes only. -/
def postD : Post :=
  { id := "D", title := "bravo", description := "bravo", category := "bravo",
    likes := [], dislikes := ["u", "v"], created_at := "2025-11-01" }

/-- Corpus whose second document is a token permutation of the user text. -/
def permCorp : List String := ["alpha bravo", "bravo alpha", "charlie delta"]

/-- Corpus whose user document has no tokens, hence a zero-norm row. -/
def zeroCorp : List String := ["", "alpha"]

/-- Result entry produced for the future-dated `postF` (age −1). -/
noncomputable def resF : ScoredResult :=
  { post_id := "F", title := "bravo", description := "bravo", category := "bravo",
    mediaType := none, mediaUrl := none,
    score := pyRound 4 (compositeScore (similarity demoCorp 0) (engagementOf postF)
      (1 / ((-1 : ℤ) : ℝ))),
    similarity := pyRound 3 (similarity demoCorp 0),
    engagement := pyRound 3 (engagementOf postF),
    recency := pyRound 3 (1 / ((-1 : ℤ) : ℝ)) }

/-! ### Rounding helpers -/

theorem roundHalfEven_eq_of_lt_half {x : ℝ} {n : ℤ} (h1 : (n : ℝ) ≤ x)
    (h2 : x < (n : ℝ) + 1 / 2) : roundHalfEven x = n := by
  have hfl : ⌊x⌋ = n := by
    rw [Int.floor_eq_iff]
    exact ⟨h1, lt_trans h2 (by linarith)⟩
  unfold roundHalfEven
  rw [hfl, if_pos (by linarith)]

theorem pyRound_eq_of_lt_half {p : ℕ} {x : ℝ} {n : ℤ} (h1 : (n : ℝ) ≤ x * 10 ^ p)
    (h2 : x * 10 ^ p < (n : ℝ) + 1 / 2) : pyRound p x = (n : ℝ) / 10 ^ p := by
  unfold pyRound
  rw [roundHalfEven_eq_of_lt_half h1 h2]

/-! ### Basic TF-IDF facts -/

theorem df_le_length (corp : List String) (t : String) : df corp t ≤ corp.length :=
  List.length_filter_le _ _

theorem idf_pos (corp : List String) (t : String) : 0 < idf corp t := by
  unfold idf
  have hlog : 0 ≤ Real.log ((1 + (corp.length : ℝ)) / (1 + (df corp t : ℝ))) := by
    apply Real.log_nonneg
    rw [le_div_iff₀ (by positivity)]
    have := df_le_length corp t
    have : (df corp t : ℝ) ≤ (corp.length : ℝ) := by exact_mod_cast this
    linarith
  linarith

theorem rowWeight_nonneg (corp : List String) (doc t : String) :
    0 ≤ rowWeight corp doc t := by
  unfold rowWeight
  have := idf_pos corp t
  positivity

theorem rowWeight_eq_zero {doc t : String} (corp : List String) (h : tf doc t = 0) :
    rowWeight corp doc t = 0 := by
  unfold rowWeight
  rw [h]
  simp

theorem tfidfRow_nonneg (corp : List String) (doc t : String) :
    0 ≤ tfidfRow corp doc t := by
  unfold tfidfRow
  split
  · exact le_refl 0
  · have hw := rowWeight_nonneg corp doc t
    have hn : 0 ≤ rowNorm corp doc := Real.sqrt_nonneg _
    positivity

theorem tfidfRow_eq_zero_of_tf_zero {doc t : String} (corp : List String)
    (h : tf doc t = 0) : tfidfRow corp doc t = 0 := by
  unfold tfidfRow
  rw [rowWeight_eq_zero corp h]
  split <;> simp

theorem rowNormSq_nonneg (corp : List String) (doc : String) :
    0 ≤ rowNormSq corp doc := by
  unfold rowNormSq
  exact Finset.sum_nonneg fun t _ => sq_nonneg _

theorem rowNorm_sq_eq (corp : List String) (doc : String) :
    rowNorm corp doc ^ 2 = rowNormSq corp doc :=
  Real.sq_sqrt (rowNormSq_nonneg corp doc)

theorem tfidfRow_eq_zero_of_norm_zero {corp : List String} {doc : String}
    (h : rowNorm corp doc = 0) (t : String) : tfidfRow corp doc t = 0 := by
  unfold tfidfRow
  rw [if_pos h]

/-- The squared norm of a normalized row is 0 (degenerate row) or 1. -/
theorem sum_sq_tfidfRow (corp : List String) (doc : String) :
    ∑ t in (vocab corp).toFinset, tfidfRow corp doc t ^ 2 =
      if rowNorm corp doc = 0 then 0 else 1 := by
  by_cases h : rowNorm corp doc = 0
  · rw [if_pos h]
    apply Finset.sum_eq_zero
    intro t _
    rw [tfidfRow_eq_zero_of_norm_zero h t]
    simp
  · rw [if_neg h]
    have hsum : ∀ t ∈ (vocab corp).toFinset,
        tfidfRow corp doc t ^ 2 = rowWeight corp doc t ^ 2 / rowNorm corp doc ^ 2 := by
      intro t _
      unfold tfidfRow
      rw [if_neg h, div_pow]
    rw [Finset.sum_congr rfl hsum, ← Finset.sum_div, rowNorm_sq_eq]
    have : rowNormSq corp doc ≠ 0 := by
      intro hz
      exact h (by unfold rowNorm; rw [hz, Real.sqrt_zero])
    rw [rowNormSq] at this ⊢
    exact div_self this

theorem sum_sq_tfidfRow_le_one (corp : List String) (doc : String) :
    ∑ t in (vocab corp).toFinset, tfidfRow corp doc t ^ 2 ≤ 1 := by
  rw [sum_sq_tfidfRow]
  split <;> norm_num

theorem cosSim_nonneg (corp : List String) (d1 d2 : String) :
    0 ≤ cosSim corp d1 d2 := by
  unfold cosSim
  exact Finset.sum_nonneg fun t _ =>
    mul_nonneg (tfidfRow_nonneg corp d1 t) (tfidfRow_nonneg corp d2 t)

theorem cosSim_le_one (corp : List String) (d1 d2 : String) :
    cosSim corp d1 d2 ≤ 1 := by
  unfold cosSim
  have hterm : ∀ t ∈ (vocab corp).toFinset,
      tfidfRow corp d1 t * tfidfRow corp d2 t ≤
        (tfidfRow corp d1 t ^ 2 + tfidfRow corp d2 t ^ 2) / 2 := by
    intro t _
    nlinarith [sq_nonneg (tfidfRow corp d1 t - tfidfRow corp d2 t)]
  calc ∑ t in (vocab corp).toFinset, tfidfRow corp d1 t * tfidfRow corp d2 t
      ≤ ∑ t in (vocab corp).toFinset,
          (tfidfRow corp d1 t ^ 2 + tfidfRow corp d2 t ^ 2) / 2 :=
        Finset.sum_le_sum hterm
    _ = ((∑ t in (vocab corp).toFinset, tfidfRow corp d1 t ^ 2) +
          ∑ t in (vocab corp).toFinset, tfidfRow corp d2 t ^ 2) / 2 := by
        rw [← Finset.sum_add_distrib, Finset.sum_div]
    _ ≤ (1 + 1) / 2 := by
        have h1 := sum_sq_tfidfRow_le_one corp d1
        have h2 := sum_sq_tfidfRow_le_one corp d2
        linarith
    _ = 1 := by norm_num

theorem cosSim_eq_zero_of_norm_zero {corp : List String} {d1 : String} (d2 : String)
    (h : rowNorm corp d1 = 0) :
    cosSim corp d1 d2 = 0 ∧ cosSim corp d2 d1 = 0 := by
  constructor <;>
  · unfold cosSim
    apply Finset.sum_eq_zero
    intro t _
    rw [tfidfRow_eq_zero_of_norm_zero h t]
    simp

/-- Documents with the same token multiset have the same TF-IDF row. -/
theorem tfidfRow_congr_perm {d1 d2 : String} (corp : List String)
    (h : (tokenize d1).Perm (tokenize d2)) : tfidfRow corp d1 = tfidfRow corp d2 := by
  have htf : ∀ t, tf d1 t = tf d2 t := fun t => h.count_eq t
  have hw : rowWeight corp d1 = rowWeight corp d2 := by
    funext t
    unfold rowWeight
    rw [htf t]
  have hn : rowNorm corp d1 = rowNorm corp d2 := by
    unfold rowNorm rowNormSq
    rw [hw]
  funext t
  unfold tfidfRow
  rw [hw, hn]

/-- Cosine similarity of a document with itself is 0 (zero row) or 1. -/
theorem cosSim_self (corp : List String) (doc : String) :
    cosSim corp doc doc = if rowNorm corp doc = 0 then 0 else 1 := by
  unfold cosSim
  rw [← sum_sq_tfidfRow]
  apply Finset.sum_congr rfl
  intro t _
  ring

/-! ### Stable-sort facts for the final `recommendations.sort` -/

/-- Inserting an element keeps the sublist of entries with any given stored
score unchanged apart from the inserted element: the insertion point is past
strictly greater scores only. -/
theorem filter_orderedInsert_score (k : ℝ) (x : ScoredResult) :
    ∀ l : List ScoredResult,
      (List.orderedInsert scoreRel x l).filter (fun r => decide (r.score = k)) =
        if x.score = k then
          x :: l.filter (fun r => decide (r.score = k))
        else l.filter (fun r => decide (r.score = k)) := by
  intro l
  induction l with
  | nil =>
    by_cases hx : x.score = k <;>
      simp [List.orderedInsert, List.filter, hx]
  | cons y ys ih =>
    rw [List.orderedInsert]
    by_cases hr : scoreRel x y
    · rw [if_pos hr]
      by_cases hx : x.score = k <;> by_cases hy : y.score = k <;>
        simp [List.filter, hx, hy]
    · rw [if_neg hr]
      have hxy : x.score < y.score := lt_of_not_le hr
      by_cases hy : y.score = k
      · have hx : ¬ x.score = k := by
          intro hx
          rw [hx] at hxy
          rw [hy] at hxy
          exact lt_irrefl k hxy
        simp only [List.filter, hy, ih, hx, if_neg hx]
        simp [hy]
      · simp only [List.filter, hy, ih]
        by_cases hx : x.score = k <;> simp [hx, hy]

/-- Stability of the final sort: for every score value `k`, the sorted list
restricted to entries with stored score `k` equals the unsorted list
restricted the same way, i.e. equal-score entries keep their input order. -/
theorem filter_insertionSort_score (k : ℝ) :
    ∀ l : List ScoredResult,
      (List.insertionSort scoreRel l).filter (fun r => decide (r.score = k)) =
        l.filter (fun r => decide (r.score = k)) := by
  intro l
  induction l with
  | nil => rfl
  | cons x xs ih =>
    rw [List.insertionSort, filter_orderedInsert_score]
    by_cases hx : x.score = k <;> simp [List.filter, hx, ih]

/-! ### Inversion lemmas for the pipeline -/

theorem scorePost_eq_ok {p : Post} {now a : ℤ} (corp : List String) (i : ℕ)
    (hd : days_since p.created_at now = .ok a) (ha : ¬ a = 0) :
    scorePost corp now i p =
      .ok { post_id := p.id, title := p.title, description := p.description,
            category := p.category, mediaType := p.mediaType, mediaUrl := p.mediaUrl,
            score := pyRound 4 (compositeScore (similarity corp i) (engagementOf p)
              (1 / (a : ℝ))),
            similarity := pyRound 3 (similarity corp i),
            engagement := pyRound 3 (engagementOf p),
            recency := pyRound 3 (1 / (a : ℝ)) } := by
  unfold scorePost
  rw [hd]
  simp only [if_neg ha]

theorem scorePost_ok_elim {corp : List String} {now : ℤ} {i : ℕ} {p : Post}
    {r : ScoredResult} (h : scorePost corp now i p = .ok r) :
    ∃ a : ℤ, days_since p.created_at now = .ok a ∧ ¬ a = 0 ∧
      r = { post_id := p.id, title := p.title, description := p.description,
            category := p.category, mediaType := p.mediaType, mediaUrl := p.mediaUrl,
            score := pyRound 4 (compositeScore (similarity corp i) (engagementOf p)
              (1 / (a : ℝ))),
            similarity := pyRound 3 (similarity corp i),
            engagement := pyRound 3 (engagementOf p),
            recency := pyRound 3 (1 / (a : ℝ)) } := by
  cases hd : days_since p.created_at now with
  | error e =>
    have he : scorePost corp now i p = .error e := by
      unfold scorePost; rw [hd]
    rw [he] at h
    exact absurd h (by simp)
  | ok a =>
    by_cases ha : a = 0
    · have he : scorePost corp now i p = .error .zeroDivision := by
        unfold scorePost; rw [hd]; simp only [if_pos ha]
      rw [he] at h
      exact absurd h (by simp)
    · rw [scorePost_eq_ok corp i hd ha] at h
      exact ⟨a, rfl, ha, ((Except.ok.injEq _ _).mp h).symm⟩

theorem mapIdxE_ok_length {f : ℕ → Post → Except RecErr ScoredResult} :
    ∀ {n : ℕ} {ps : List Post} {rs : List ScoredResult},
      mapIdxE f n ps = .ok rs → rs.length = ps.length := by
  intro n ps
  induction ps generalizing n with
  | nil => intro rs h; cases h; rfl
  | cons p ps ih =>
    intro rs h
    unfold mapIdxE at h
    cases hf : f n p with
    | error e => rw [hf] at h; exact absurd h (by simp)
    | ok r =>
      rw [hf] at h
      cases hm : mapIdxE f (n + 1) ps with
      | error e => rw [hm] at h; exact absurd h (by simp)
      | ok rs' =>
        rw [hm] at h
        cases h
        simp [ih hm]

theorem mapIdxE_ok_get {f : ℕ → Post → Except RecErr ScoredResult} :
    ∀ {n : ℕ} {ps : List Post} {rs : List ScoredResult},
      mapIdxE f n ps = .ok rs →
        ∀ i (hi : i < ps.length) (hi' : i < rs.length),
          f (n + i) (ps.get ⟨i, hi⟩) = .ok (rs.get ⟨i, hi'⟩) := by
  intro n ps
  induction ps generalizing n with
  | nil => intro rs _ i hi; exact absurd hi (Nat.not_lt_zero i)
  | cons p ps ih =>
    intro rs h i hi hi'
    unfold mapIdxE at h
    cases hf : f n p with
    | error e => rw [hf] at h; exact absurd h (by simp)
    | ok r =>
      rw [hf] at h
      cases hm : mapIdxE f (n + 1) ps with
      | error e => rw [hm] at h; exact absurd h (by simp)
      | ok rs' =>
        rw [hm] at h
        cases h
        cases i with
        | zero => simpa using hf
        | succ j =>
          have hj : j < ps.length := Nat.lt_of_succ_lt_succ hi
          have hj' : j < rs'.length := Nat.lt_of_succ_lt_succ hi'
          have harith : n + (j + 1) = n + 1 + j := by omega
          rw [harith]
          simpa using ih hm j hj hj'

theorem mapIdxE_error_of_bad {f : ℕ → Post → Except RecErr ScoredResult} :
    ∀ {n : ℕ} {ps : List Post} {rs : List ScoredResult},
      mapIdxE f n ps = .ok rs → ∀ p ∈ ps, ∃ j r, f j p = .ok r := by
  intro n ps
  induction ps generalizing n with
  | nil => intro rs _ p hp; exact absurd hp (List.not_mem_nil p)
  | cons q ps ih =>
    intro rs h p hp
    unfold mapIdxE at h
    cases hf : f n q with
    | error e => rw [hf] at h; exact absurd h (by simp)
    | ok r =>
      rw [hf] at h
      cases hm : mapIdxE f (n + 1) ps with
      | error e => rw [hm] at h; exact absurd h (by simp)
      | ok rs' =>
        rcases List.mem_cons.mp hp with rfl | hp'
        · exact ⟨n, r, hf⟩
        · exact ih hm p hp'

theorem mapIdxE_ok_ids {corp : List String} {now : ℤ} :
    ∀ {n : ℕ} {ps : List Post} {rs : List ScoredResult},
      mapIdxE (scorePost corp now) n ps = .ok rs →
        rs.map (fun r => r.post_id) = ps.map (fun p => p.id) := by
  intro n ps
  induction ps generalizing n with
  | nil => intro rs h; cases h; rfl
  | cons p ps ih =>
    intro rs h
    unfold mapIdxE at h
    cases hf : scorePost corp now n p with
    | error e => rw [hf] at h; exact absurd h (by simp)
    | ok r =>
      rw [hf] at h
      cases hm : mapIdxE (scorePost corp now) (n + 1) ps with
      | error e => rw [hm] at h; exact absurd h (by simp)
      | ok rs' =>
        rw [hm] at h
        cases h
        obtain ⟨a, _, _, hr⟩ := scorePost_ok_elim hf
        simp [hr, ih hm]

theorem recommend_ok_elim {u : User} {posts : List Post} {now : ℤ}
    {res : List ScoredResult} (h : recommend u posts now = .ok res) :
    ¬ vocab (corpus u posts) = [] ∧ ¬ posts = [] ∧
      ∃ entries, mapIdxE (scorePost (corpus u posts) now) 0 posts = .ok entries ∧
        res = List.insertionSort scoreRel entries := by
  unfold recommend at h
  by_cases hv : vocab (corpus u posts) = []
  · rw [if_pos hv] at h; exact absurd h (by simp)
  · rw [if_neg hv] at h
    by_cases hp : posts = []
    · rw [if_pos hp] at h; exact absurd h (by simp)
    · rw [if_neg hp] at h
      cases hm : mapIdxE (scorePost (corpus u posts) now) 0 posts with
      | error e => rw [hm] at h; exact absurd h (by simp)
      | ok entries =>
        rw [hm] at h
        exact ⟨hv, hp, entries, rfl, ((Except.ok.injEq _ _).mp h).symm⟩

theorem recommend_eq_ok {u : User} {posts : List Post} {now : ℤ}
    {entries : List ScoredResult} (hv : ¬ vocab (corpus u posts) = [])
    (hp : ¬ posts = [])
    (hm : mapIdxE (scorePost (corpus u posts) now) 0 posts = .ok entries) :
    recommend u posts now = .ok (List.insertionSort scoreRel entries) := by
  unfold recommend
  rw [if_neg hv, if_neg hp, hm]

/-! ### Evaluation of the demonstration request -/

theorem demo_cos : cosSim demoCorp "alpha" "bravo bravo bravo" = 0 := by
  unfold cosSim
  apply Finset.sum_eq_zero
  intro t ht
  have hv : vocab demoCorp = ["alpha", "bravo"] := by decide
  rw [hv] at ht
  have ht' : t = "alpha" ∨ t = "bravo" := by
    simpa using ht
  rcases ht' with rfl | rfl
  · rw [tfidfRow_eq_zero_of_tf_zero demoCorp
      (show tf "bravo bravo bravo" "alpha" = 0 by decide)]
    ring
  · rw [tfidfRow_eq_zero_of_tf_zero demoCorp
      (show tf "alpha" "bravo" = 0 by decide)]
    ring

theorem demo_sim0 : similarity demoCorp 0 = 0 := by
  show cosSim demoCorp (demoCorp.getD 0 "") (demoCorp.getD 1 "") = 0
  exact demo_cos

theorem demo_sim1 : similarity demoCorp 1 = 0 := by
  show cosSim demoCorp (demoCorp.getD 0 "") (demoCorp.getD 2 "") = 0
  exact demo_cos

theorem demo_engA : engagementOf postA = 200 / 201 := by
  unfold engagementOf
  show (((List.replicate 200 "u").length : ℝ) - 0.5 * (([] : List String).length : ℝ)) /
      (((List.replicate 200 "u").length : ℝ) + (([] : List String).length : ℝ) + 1) = _
  rw [List.length_replicate]
  norm_num

theorem demo_engB : engagementOf postB = 201 / 202 := by
  unfold engagementOf
  show (((List.replicate 201 "u").length : ℝ) - 0.5 * (([] : List String).length : ℝ)) /
      (((List.replicate 201 "u").length : ℝ) + (([] : List String).length : ℝ) + 1) = _
  rw [List.length_replicate]
  norm_num

theorem demo_scorePostA : scorePost demoCorp demoNow 0 postA = .ok resA :=
  scorePost_eq_ok demoCorp 0 (show days_since postA.created_at demoNow = .ok 1 by rfl)
    (by decide)

theorem demo_scorePostB : scorePost demoCorp demoNow 1 postB = .ok resB :=
  scorePost_eq_ok demoCorp 1 (show days_since postB.created_at demoNow = .ok 1 by rfl)
    (by decide)

/-- Unrounded composite score of `postA`: `0.3 * (200/201) + 0.1`. -/
theorem demo_rawA : compositeScore (similarity demoCorp 0) (engagementOf postA)
    (1 / ((1 : ℤ) : ℝ)) = 267 / 670 := by
  rw [demo_sim0, demo_engA]
  unfold compositeScore
  norm_num

/-- Unrounded composite score of `postB`: `0.3 * (201/202) + 0.1`. -/
theorem demo_rawB : compositeScore (similarity demoCorp 1) (engagementOf postB)
    (1 / ((1 : ℤ) : ℝ)) = 161 / 404 := by
  rw [demo_sim1, demo_engB]
  unfold compositeScore
  norm_num

theorem demo_resA_score : resA.score = 3985 / 10000 := by
  show pyRound 4 (compositeScore (similarity demoCorp 0) (engagementOf postA)
    (1 / ((1 : ℤ) : ℝ))) = _
  rw [demo_rawA,
    @pyRound_eq_of_lt_half 4 (267 / 670) 3985 (by norm_num) (by norm_num)]
  norm_num

theorem demo_resB_score : resB.score = 3985 / 10000 := by
  show pyRound 4 (compositeScore (similarity demoCorp 1) (engagementOf postB)
    (1 / ((1 : ℤ) : ℝ))) = _
  rw [demo_rawB,
    @pyRound_eq_of_lt_half 4 (161 / 404) 3985 (by norm_num) (by norm_num)]
  norm_num

theorem demo_mapIdx : mapIdxE (scorePost demoCorp demoNow) 0 [postA, postB] =
    .ok [resA, resB] := by
  simp only [mapIdxE, demo_scorePostA, zero_add, demo_scorePostB]

theorem demo_sort : List.insertionSort scoreRel [resA, resB] = [resA, resB] := by
  have hrel : scoreRel resA resB := by
    show resB.score ≤ resA.score
    rw [demo_resA_score, demo_resB_score]
  simp only [List.insertionSort, List.orderedInsert, if_pos hrel]

/-- Full evaluation of the demonstration request: both candidates round to
the same displayed score, so the stable sort keeps the input order even
though `postB`'s unrounded score is strictly larger. -/
theorem demo_recommend : recommend demoUser [postA, postB] demoNow = .ok [resA, resB] := by
  rw [recommend_eq_ok (show ¬ vocab (corpus demoUser [postA, postB]) = [] by decide)
    (by simp) demo_mapIdx, demo_sort]

/-! ### Further concrete inputs and arithmetic helpers -/

/-- Flooring division is characterized by its bounds (positive divisor). -/
theorem fdiv_eq_of_bounds {x D q : ℤ} (hD : 0 < D) (h1 : q * D ≤ x)
    (h2 : x < (q + 1) * D) : Int.fdiv x D = q := by
  rw [Int.fdiv_eq_ediv x (le_of_lt hD)]
  have ha : q ≤ x / D := (Int.le_ediv_iff_mul_le hD).mpr h1
  have hb : x / D < q + 1 := (Int.ediv_lt_iff_lt_mul hD).mpr h2
  omega

theorem zeroCorp_user_norm : rowNorm zeroCorp "" = 0 := by
  have hsq : rowNormSq zeroCorp "" = 0 := by
    unfold rowNormSq
    apply Finset.sum_eq_zero
    intro t _
    rw [rowWeight_eq_zero zeroCorp
      (by unfold tf; rw [show tokenize "" = [] from rfl]; simp)]
    simp
  unfold rowNorm
  rw [hsq, Real.sqrt_zero]

theorem demo_scorePostF : scorePost demoCorp demoNow 0 postF = .ok resF :=
  scorePost_eq_ok demoCorp 0 (show days_since postF.created_at demoNow = .ok (-1) by rfl)
    (by decide)

theorem demo_resF_recency : resF.recency = -1 := by
  show pyRound 3 (1 / ((-1 : ℤ) : ℝ)) = -1
  rw [show (1 / ((-1 : ℤ) : ℝ)) = -1 by norm_num]
  rw [@pyRound_eq_of_lt_half 3 (-1) (-1000) (by norm_num) (by norm_num)]
  norm_num

/-! ### Claims -/

/-- C3: in every successful request, each candidate's composite score is
`0.6 * similarity + 0.3 * engagement + 0.1 * recency` with the fixed weights
(the stored value being its 4-digit rounding), and the composite is
monotonically non-decreasing in each component with the other two fixed. -/
theorem C3_composite_score {u : User} {posts : List Post} {now : ℤ}
    {res : List ScoredResult} (h : recommend u posts now = .ok res) :
    (∀ i, ∀ hi : i < posts.length, ∃ r ∈ res, ∃ a : ℤ,
      days_since (posts.get ⟨i, hi⟩).created_at now = .ok a ∧ ¬ a = 0 ∧
      r.score = pyRound 4 (0.6 * similarity (corpus u posts) i +
        0.3 * engagementOf (posts.get ⟨i, hi⟩) + 0.1 * (1 / (a : ℝ)))) ∧
    (∀ s e c s' : ℝ, s ≤ s' → compositeScore s e c ≤ compositeScore s' e c) ∧
    (∀ s e c e' : ℝ, e ≤ e' → compositeScore s e c ≤ compositeScore s e' c) ∧
    (∀ s e c c' : ℝ, c ≤ c' → compositeScore s e c ≤ compositeScore s e c') := by
  obtain ⟨hv, hp, entries, hm, hres⟩ := recommend_ok_elim h
  refine ⟨?_, ?_, ?_, ?_⟩
  · intro i hi
    have hlen := mapIdxE_ok_length hm
    have hi' : i < entries.length := by omega
    have hget := mapIdxE_ok_get hm i hi hi'
    rw [zero_add] at hget
    obtain ⟨a, hd, ha, hr⟩ := scorePost_ok_elim hget
    refine ⟨entries.get ⟨i, hi'⟩, ?_, a, hd, ha, ?_⟩
    · rw [hres]
      exact (List.mem_insertionSort scoreRel).mpr (entries.get_mem i hi')
    · rw [hr]
      simp only [compositeScore]
  · intro s e c s' hs
    unfold compositeScore
    linarith
  · intro s e c e' he
    unfold compositeScore
    linarith
  · intro s e c c' hc
    unfold compositeScore
    linarith

/-- C3 witness: the demonstration request, candidate 0. -/
theorem C3_composite_score_witness :
    ∃ r ∈ [resA, resB], ∃ a : ℤ,
      days_since postA.created_at demoNow = .ok a ∧ ¬ a = 0 ∧
      r.score = pyRound 4 (0.6 * similarity (corpus demoUser [postA, postB]) 0 +
        0.3 * engagementOf postA + 0.1 * (1 / (a : ℝ))) :=
  (C3_composite_score demo_recommend).1 0 (by norm_num)

/-- C5: the engagement component is `(L - 0.5*D) / (L + D + 1)` for the
reaction-list lengths; its denominator is positive (always defined), it is
0 for a post with no reactions, negative when dislikes dominate, and the
stored field is its 3-digit rounding. -/
theorem C5_engagement_formula (p : Post) :
    engagementOf p = ((p.likes.length : ℝ) - 0.5 * (p.dislikes.length : ℝ)) /
      ((p.likes.length : ℝ) + (p.dislikes.length : ℝ) + 1) ∧
    (0 : ℝ) < (p.likes.length : ℝ) + (p.dislikes.length : ℝ) + 1 ∧
    (p.likes.length = 0 → p.dislikes.length = 0 → engagementOf p = 0) ∧
    (2 * p.likes.length < p.dislikes.length → engagementOf p < 0) ∧
    (∀ corp now i r, scorePost corp now i p = .ok r →
      r.engagement = pyRound 3 (engagementOf p)) := by
  refine ⟨rfl, by positivity, ?_, ?_, ?_⟩
  · intro hL hD
    unfold engagementOf
    rw [hL, hD]
    norm_num
  · intro hdom
    unfold engagementOf
    apply div_neg_of_neg_of_pos
    · have hc : 2 * (p.likes.length : ℝ) < (p.dislikes.length : ℝ) := by
        exact_mod_cast hdom
      linarith
    · positivity
  · intro corp now i r hr
    obtain ⟨a, _, _, hrec⟩ := scorePost_ok_elim hr
    rw [hrec]

/-- C5 witness: the stored engagement of `postA`, the no-reaction candidate
`emptyPost` (exactly 0), and the dislike-dominated candidate `postD`. -/
theorem C5_engagement_formula_witness :
    resA.engagement = pyRound 3 (engagementOf postA) ∧
    engagementOf emptyPost = 0 ∧ engagementOf postD < 0 :=
  ⟨(C5_engagement_formula postA).2.2.2.2 demoCorp demoNow 0 resA demo_scorePostA,
   (C5_engagement_formula emptyPost).2.2.1 rfl rfl,
   (C5_engagement_formula postD).2.2.2.1 (by decide)⟩

/-- C9: every user-candidate cosine similarity lies in `[0, 1]`, is 0
whenever either row has zero norm, and a candidate whose token multiset
equals the user text's attains the maximum similarity in the corpus. -/
theorem C9_cosine_bounds (corp : List String) (i : ℕ) :
    0 ≤ similarity corp i ∧ similarity corp i ≤ 1 ∧
    (rowNorm corp (corp.getD 0 "") = 0 ∨ rowNorm corp (corp.getD (i + 1) "") = 0 →
      similarity corp i = 0) ∧
    ((tokenize (corp.getD (i + 1) "")).Perm (tokenize (corp.getD 0 "")) →
      ∀ j, similarity corp j ≤ similarity corp i) := by
  refine ⟨cosSim_nonneg corp _ _, cosSim_le_one corp _ _, ?_, ?_⟩
  · rintro (hz | hz)
    · exact (cosSim_eq_zero_of_norm_zero (corp.getD (i + 1) "") hz).1
    · exact (cosSim_eq_zero_of_norm_zero (corp.getD 0 "") hz).2
  · intro hperm j
    have hrow : tfidfRow corp (corp.getD (i + 1) "") = tfidfRow corp (corp.getD 0 "") :=
      tfidfRow_congr_perm corp hperm
    have hsimi : similarity corp i = cosSim corp (corp.getD 0 "") (corp.getD 0 "") := by
      unfold similarity cosSim
      rw [hrow]
    rw [hsimi, cosSim_self]
    by_cases hz : rowNorm corp (corp.getD 0 "") = 0
    · rw [if_pos hz]
      show cosSim corp (corp.getD 0 "") (corp.getD (j + 1) "") ≤ 0
      rw [(cosSim_eq_zero_of_norm_zero (corp.getD (j + 1) "") hz).1]
    · rw [if_neg hz]
      exact cosSim_le_one corp _ _

/-- C9 witness: a corpus whose second document permutes the user tokens
(it attains the maximum), and a corpus with a zero-norm user row
(all similarities 0). -/
theorem C9_cosine_bounds_witness :
    0 ≤ similarity permCorp 0 ∧ similarity permCorp 0 ≤ 1 ∧
    (∀ j, similarity permCorp j ≤ similarity permCorp 0) ∧
    similarity zeroCorp 0 = 0 := by
  obtain ⟨h1, h2, _, h4⟩ := C9_cosine_bounds permCorp 0
  obtain ⟨_, _, h3, _⟩ := C9_cosine_bounds zeroCorp 0
  exact ⟨h1, h2, h4 (by decide), h3 (Or.inl zeroCorp_user_norm)⟩

/-- C1 counterexample: in the demonstration request the two candidates'
unrounded composite scores differ (candidate B's is strictly larger), both
round to the same 4-digit display score, and the returned order keeps the
lower-unrounded-score candidate A first — so the ordering is not determined
by the unrounded scores: the sort uses the rounded score. -/
theorem C1_counterexample :
    recommend demoUser [postA, postB] demoNow = .ok [resA, resB] ∧
    resA.post_id = "A" ∧ resB.post_id = "B" ∧
    compositeScore (similarity demoCorp 0) (engagementOf postA) (1 / ((1 : ℤ) : ℝ)) <
      compositeScore (similarity demoCorp 1) (engagementOf postB) (1 / ((1 : ℤ) : ℝ)) ∧
    resA.score = resB.score :=
  ⟨demo_recommend, rfl, rfl, by rw [demo_rawA, demo_rawB]; norm_num,
   by rw [demo_resA_score, demo_resB_score]⟩

/-- C1 (amended): the returned ordering is descending in the *rounded*
(4-decimal-digit) score, which is the stored sort key: every result's score
field is the 4-digit rounding of its unrounded composite, and the output is
sorted by that field; ties in the rounded score keep input order, so display
rounding of the score can affect the relative order of two results. -/
theorem C1_rounded_sort {u : User} {posts : List Post} {now : ℤ}
    {res : List ScoredResult} (h : recommend u posts now = .ok res) :
    List.Sorted scoreRel res ∧
    ∀ r ∈ res, ∃ i, ∃ hi : i < posts.length, ∃ a : ℤ,
      days_since (posts.get ⟨i, hi⟩).created_at now = .ok a ∧ ¬ a = 0 ∧
      r.score = pyRound 4 (compositeScore (similarity (corpus u posts) i)
        (engagementOf (posts.get ⟨i, hi⟩)) (1 / (a : ℝ))) := by
  obtain ⟨hv, hp, entries, hm, hres⟩ := recommend_ok_elim h
  constructor
  · rw [hres]
    exact List.sorted_insertionSort scoreRel entries
  · intro r hr
    rw [hres] at hr
    have hr' : r ∈ entries := (List.mem_insertionSort scoreRel).mp hr
    obtain ⟨⟨i, hi'⟩, hget⟩ := List.mem_iff_get.mp hr'
    have hlen := mapIdxE_ok_length hm
    have hi : i < posts.length := by omega
    have hg := mapIdxE_ok_get hm i hi hi'
    rw [zero_add] at hg
    obtain ⟨a, hd, ha, hrec⟩ := scorePost_ok_elim hg
    refine ⟨i, hi, a, hd, ha, ?_⟩
    rw [← hget, hrec]

/-- C1 witness: the demonstration output is sorted by the stored score. -/
theorem C1_rounded_sort_witness : List.Sorted scoreRel [resA, resB] :=
  (C1_rounded_sort demo_recommend).1

/-- C8: the final sort is stable and descending on the stored score: the
output is pairwise descending in the score field, and for every score value
the subsequence of results carrying that score equals the corresponding
subsequence of the unsorted per-candidate entries (so equal-score results —
in particular byte-identical candidates — keep their input order). -/
theorem C8_stable_descending_sort {u : User} {posts : List Post} {now : ℤ}
    {res entries : List ScoredResult} (h : recommend u posts now = .ok res)
    (he : mapIdxE (scorePost (corpus u posts) now) 0 posts = .ok entries) :
    List.Sorted scoreRel res ∧
    ∀ k : ℝ, res.filter (fun r => decide (r.score = k)) =
      entries.filter (fun r => decide (r.score = k)) := by
  obtain ⟨hv, hp, entries', hm, hres⟩ := recommend_ok_elim h
  have hent : entries' = entries := by
    rw [hm] at he
    exact (Except.ok.injEq _ _).mp he
  subst hent
  constructor
  · rw [hres]
    exact List.sorted_insertionSort scoreRel entries'
  · intro k
    rw [hres]
    exact filter_insertionSort_score k entries'

/-- C8 witness: the demonstration request, whose two equal-score entries
keep their input order. -/
theorem C8_stable_descending_sort_witness :
    List.Sorted scoreRel [resA, resB] ∧
    ∀ k : ℝ, ([resA, resB].filter (fun r => decide (r.score = k))) =
      ([resA, resB].filter (fun r => decide (r.score = k))) :=
  C8_stable_descending_sort demo_recommend demo_mapIdx

/-- C4 counterexample: an empty candidate list does not yield an empty
output list; the request fails (the zero-sample check of
`cosine_similarity` rejects the empty candidate matrix). -/
theorem C4_counterexample :
    recommend demoUser [] demoNow = .error .emptyCandidates := by
  unfold recommend
  rw [if_neg (show ¬ vocab (corpus demoUser []) = [] by decide), if_pos rfl]

/-- C4 (amended): on every successful request the output has the same
length as the candidate list and carries the same multiset of identifiers
(nothing dropped or duplicated); a successful request necessarily has a
non-empty candidate list, because an empty one fails in the similarity
stage instead of returning an empty output. -/
theorem C4_output_preserves_candidates {u : User} {posts : List Post} {now : ℤ}
    {res : List ScoredResult} (h : recommend u posts now = .ok res) :
    res.length = posts.length ∧
    (res.map (fun r => r.post_id)).Perm (posts.map (fun p => p.id)) ∧
    ¬ posts = [] := by
  obtain ⟨hv, hp, entries, hm, hres⟩ := recommend_ok_elim h
  refine ⟨?_, ?_, hp⟩
  · rw [hres, List.length_insertionSort]
    exact mapIdxE_ok_length hm
  · rw [hres]
    have hperm := (List.perm_insertionSort scoreRel entries).map (fun r => r.post_id)
    rw [mapIdxE_ok_ids hm] at hperm
    exact hperm

/-- C4 witness: the demonstration request preserves both candidates. -/
theorem C4_output_preserves_candidates_witness :
    ([resA, resB] : List ScoredResult).length = ([postA, postB] : List Post).length ∧
    ([resA, resB].map (fun r => r.post_id)).Perm ([postA, postB].map (fun p => p.id)) ∧
    ¬ ([postA, postB] : List Post) = [] :=
  C4_output_preserves_candidates demo_recommend

/-- C2 counterexample: a corpus consisting only of empty documents (empty
interests, empty candidate text) makes the vectorizer raise the
empty-vocabulary error; it does not degrade to zero vectors. -/
theorem C2_counterexample :
    recommend emptyUser [emptyPost] demoNow = .error .emptyVocabulary := by
  unfold recommend
  rw [if_pos (show vocab (corpus emptyUser [emptyPost]) = [] by decide)]

/-- C2 (amended): vectorization fails exactly on an empty vocabulary (the
`fit_transform` error); individually degenerate documents are harmless:
a document with no surviving tokens gets the zero vector and all its
similarities are 0. -/
theorem C2_degenerate_vectorization (u : User) (posts : List Post) (now : ℤ) :
    (vocab (corpus u posts) = [] → recommend u posts now = .error .emptyVocabulary) ∧
    (∀ corp doc t, tokenize doc = [] → tfidfRow corp doc t = 0) ∧
    (∀ corp doc d2, tokenize doc = [] →
      cosSim corp doc d2 = 0 ∧ cosSim corp d2 doc = 0) := by
  refine ⟨?_, ?_, ?_⟩
  · intro hv
    unfold recommend
    rw [if_pos hv]
  · intro corp doc t htok
    apply tfidfRow_eq_zero_of_tf_zero
    unfold tf
    rw [htok]
    simp
  · intro corp doc d2 htok
    have hrow : ∀ t, tfidfRow corp doc t = 0 := by
      intro t
      apply tfidfRow_eq_zero_of_tf_zero
      unfold tf
      rw [htok]
      simp
    constructor <;>
    · unfold cosSim
      apply Finset.sum_eq_zero
      intro t _
      rw [hrow t]
      simp

/-- C2 witness: the all-empty corpus raises, and a tokenless document in
the demonstration corpus has the zero vector and zero similarities. -/
theorem C2_degenerate_vectorization_witness :
    recommend emptyUser [emptyPost] demoNow = .error .emptyVocabulary ∧
    tfidfRow demoCorp "" "alpha" = 0 ∧
    cosSim demoCorp "" "alpha" = 0 ∧ cosSim demoCorp "alpha" "" = 0 := by
  obtain ⟨h1, h2, h3⟩ := C2_degenerate_vectorization emptyUser [emptyPost] demoNow
  obtain ⟨h4, h5⟩ := h3 demoCorp "" "alpha" (by decide)
  exact ⟨h1 (by decide), h2 demoCorp "" "alpha" (by decide), h4, h5⟩

/-- C7: a candidate whose creation date parses in neither format makes the
whole request fail (no output list at all), and when every creation date
parses, `days_since` succeeds for every candidate. -/
theorem C7_timestamp_fatal (u : User) (posts : List Post) (now : ℤ) :
    ((∃ p ∈ posts, parseTimestamp p.created_at = none) →
      ∀ res, ¬ recommend u posts now = .ok res) ∧
    ((∀ p ∈ posts, ∃ d, parseTimestamp p.created_at = some d) →
      ∀ p ∈ posts, ∃ a, days_since p.created_at now = .ok a) := by
  constructor
  · rintro ⟨p, hp, hnone⟩ res h
    obtain ⟨_, _, entries, hm, _⟩ := recommend_ok_elim h
    obtain ⟨j, r, hjr⟩ := mapIdxE_error_of_bad hm p hp
    obtain ⟨a, hd, _, _⟩ := scorePost_ok_elim hjr
    unfold days_since at hd
    rw [hnone] at hd
    exact absurd hd (by simp)
  · rintro hall p hp
    obtain ⟨d, hd⟩ := hall p hp
    refine ⟨Int.fdiv (now - d) 86400000000 + 1, ?_⟩
    unfold days_since
    rw [hd]

/-- C7 witness: one unparseable candidate aborts the request; the two
parseable demonstration candidates pass the timestamp stage. -/
theorem C7_timestamp_fatal_witness :
    (∀ res, ¬ recommend demoUser [postBad] demoNow = .ok res) ∧
    ∀ p ∈ [postA, postB], ∃ a, days_since p.created_at demoNow = .ok a := by
  constructor
  · exact (C7_timestamp_fatal demoUser [postBad] demoNow).1
      ⟨postBad, by simp, by decide⟩
  · refine (C7_timestamp_fatal demoUser [postA, postB] demoNow).2 ?_
    intro p hp
    rcases List.mem_cons.mp hp with rfl | hp'
    · exact ⟨1761955200000000, by decide⟩
    rcases List.mem_cons.mp hp' with rfl | hp''
    · exact ⟨1761955200000000, by decide⟩
    · exact absurd hp'' (List.not_mem_nil p)

/-- C6 counterexample: a parseable timestamp two days in the future yields
age −1 and recency −1, which is not positive — so recency is not a
positive real for *every* parseable creation timestamp. -/
theorem C6_counterexample :
    parseTimestamp "2025-11-03T12:00:00" = some 1762171200000000 ∧
    days_since "2025-11-03T12:00:00" demoNow = .ok (-1) ∧
    1 / (((-1 : ℤ) : ℝ)) < 0 :=
  ⟨by decide, by rfl, by norm_num⟩

/-- C6 (amended): for a candidate whose parseable creation timestamp is not
after the evaluation instant, the day count is `floor days elapsed + 1 ≥ 1`,
recency `1/age` is positive and strictly decreasing in the age, and the
stored recency field is its 3-digit rounding.  (A creation on the
evaluation date gives age 1 and recency 1; nine days earlier gives age 10
and recency 1/10 — see the witness.) -/
theorem C6_recency_formula {s : String} {d now : ℤ}
    (hp : parseTimestamp s = some d) (hle : d ≤ now) :
    ∃ a : ℤ, days_since s now = .ok a ∧
      a = Int.fdiv (now - d) 86400000000 + 1 ∧ 1 ≤ a ∧ (0 : ℝ) < 1 / (a : ℝ) ∧
      (∀ b : ℤ, a < b → 1 / (b : ℝ) < 1 / (a : ℝ)) ∧
      (∀ corp i p r, p.created_at = s → scorePost corp now i p = .ok r →
        r.recency = pyRound 3 (1 / (a : ℝ))) := by
  have hds : days_since s now = .ok (Int.fdiv (now - d) 86400000000 + 1) := by
    unfold days_since
    rw [hp]
  have hfd : 0 ≤ Int.fdiv (now - d) 86400000000 := by
    rw [Int.fdiv_eq_ediv _ (by norm_num)]
    exact Int.ediv_nonneg (by omega) (by norm_num)
  refine ⟨Int.fdiv (now - d) 86400000000 + 1, hds, rfl, by omega, ?_, ?_, ?_⟩
  · have haR : (1 : ℝ) ≤ ((Int.fdiv (now - d) 86400000000 + 1 : ℤ) : ℝ) := by
      exact_mod_cast (by omega : (1 : ℤ) ≤ Int.fdiv (now - d) 86400000000 + 1)
    exact one_div_pos.mpr (by linarith)
  · intro b hb
    have h0 : (0 : ℝ) < ((Int.fdiv (now - d) 86400000000 + 1 : ℤ) : ℝ) := by
      exact_mod_cast (by omega : (0 : ℤ) < Int.fdiv (now - d) 86400000000 + 1)
    have hab : ((Int.fdiv (now - d) 86400000000 + 1 : ℤ) : ℝ) < (b : ℝ) := by
      exact_mod_cast hb
    exact one_div_lt_one_div_of_lt h0 hab
  · intro corp i p r hps hr
    obtain ⟨a', hd', _, hrec⟩ := scorePost_ok_elim hr
    rw [hps] at hd'
    rw [hds] at hd'
    have haa : a' = Int.fdiv (now - d) 86400000000 + 1 :=
      ((Except.ok.injEq _ _).mp hd').symm
    rw [hrec, haa]

/-- C6 witness: creation on the evaluation date gives age 1, recency 1;
creation nine days earlier gives age 10, recency 1/10; the stored recency
of the demonstration candidate is exactly 1. -/
theorem C6_witness :
    (∃ a : ℤ, days_since "2025-11-01" demoNow = .ok a ∧
      a = Int.fdiv (demoNow - 1761955200000000) 86400000000 + 1 ∧ 1 ≤ a ∧
      (0 : ℝ) < 1 / (a : ℝ) ∧
      (∀ b : ℤ, a < b → 1 / (b : ℝ) < 1 / (a : ℝ)) ∧
      (∀ corp i p r, p.created_at = "2025-11-01" → scorePost corp demoNow i p = .ok r →
        r.recency = pyRound 3 (1 / (a : ℝ)))) ∧
    (∃ a : ℤ, days_since "2025-10-23" demoNow = .ok a ∧
      a = Int.fdiv (demoNow - 1761177600000000) 86400000000 + 1 ∧ 1 ≤ a ∧
      (0 : ℝ) < 1 / (a : ℝ) ∧
      (∀ b : ℤ, a < b → 1 / (b : ℝ) < 1 / (a : ℝ)) ∧
      (∀ corp i p r, p.created_at = "2025-10-23" → scorePost corp demoNow i p = .ok r →
        r.recency = pyRound 3 (1 / (a : ℝ)))) ∧
    days_since "2025-11-01" demoNow = .ok 1 ∧
    days_since "2025-10-23" demoNow = .ok 10 ∧
    resA.recency = 1 :=
  ⟨C6_recency_formula (by decide) (by decide),
   C6_recency_formula (by decide) (by decide),
   by rfl, by rfl,
   by
    show pyRound 3 (1 / ((1 : ℤ) : ℝ)) = 1
    rw [show (1 / ((1 : ℤ) : ℝ)) = 1 by norm_num]
    rw [@pyRound_eq_of_lt_half 3 1 1000 (by norm_num) (by norm_num)]
    norm_num⟩

/-- C10 counterexample: a parseable timestamp 1.5 days in the future —
strictly between one and two days ahead — does not make the recency
division a division by zero: the day count is −1, scoring succeeds, and the
recency is −1. -/
theorem C10_counterexample :
    parseTimestamp "2025-11-03T00:00:00" = some 1762128000000000 ∧
    demoNow + 86400000000 < 1762128000000000 ∧
    1762128000000000 < demoNow + 2 * 86400000000 ∧
    days_since "2025-11-03T00:00:00" demoNow = .ok (-1) ∧
    ¬ ((-1 : ℤ) = 0) ∧
    scorePost demoCorp demoNow 0 postF = .ok resF ∧
    resF.recency = -1 :=
  ⟨by decide, by decide, by decide, by rfl, by decide, demo_scorePostF,
   demo_resF_recency⟩

/-- C10 (amended): a parseable timestamp in the future up to one day makes
the day count 0, so the recency division raises `ZeroDivisionError`; a
timestamp more than one day in the future makes the day count negative and
the recency negative — neither case is rejected as an invalid timestamp. -/
theorem C10_future_timestamps {s : String} {d now : ℤ}
    (hp : parseTimestamp s = some d) :
    (now < d → d ≤ now + 86400000000 → days_since s now = .ok 0 ∧
      ∀ corp i p, p.created_at = s → scorePost corp now i p = .error .zeroDivision) ∧
    (now + 86400000000 < d → ∃ a : ℤ, days_since s now = .ok a ∧ a < 0 ∧
      1 / (a : ℝ) < 0) := by
  have hds : days_since s now = .ok (Int.fdiv (now - d) 86400000000 + 1) := by
    unfold days_since
    rw [hp]
  constructor
  · intro hlt hle
    have hfd : Int.fdiv (now - d) 86400000000 = -1 :=
      fdiv_eq_of_bounds (by norm_num) (by omega) (by omega)
    have hds0 : days_since s now = .ok 0 := by
      rw [hds, hfd]
      simp
    refine ⟨hds0, ?_⟩
    intro corp i p hps
    unfold scorePost
    rw [hps, hds0]
    simp
  · intro hgt
    have hq : (now - d) / 86400000000 < -1 :=
      (Int.ediv_lt_iff_lt_mul (by norm_num)).mpr (by omega)
    have hfd : Int.fdiv (now - d) 86400000000 = (now - d) / 86400000000 :=
      Int.fdiv_eq_ediv _ (by norm_num)
    refine ⟨Int.fdiv (now - d) 86400000000 + 1, hds, by omega, ?_⟩
    have haneg : ((Int.fdiv (now - d) 86400000000 + 1 : ℤ) : ℝ) < 0 := by
      exact_mod_cast (by omega : Int.fdiv (now - d) 86400000000 + 1 < 0)
    exact one_div_neg.mpr haneg

/-- C10 witness: half a day ahead (`postG`) raises the zero division; two
and a half days ahead gives a negative recency. -/
theorem C10_future_timestamps_witness :
    (days_since "2025-11-02" demoNow = .ok 0 ∧
      ∀ corp i p, p.created_at = "2025-11-02" →
        scorePost corp demoNow i p = .error .zeroDivision) ∧
    (∃ a : ℤ, days_since "2025-11-04" demoNow = .ok a ∧ a < 0 ∧ 1 / (a : ℝ) < 0) ∧
    scorePost demoCorp demoNow 0 postG = .error .zeroDivision :=
  ⟨(C10_future_timestamps (show parseTimestamp "2025-11-02" = some 1762041600000000
      by decide)).1 (by decide) (by decide),
   (C10_future_timestamps (show parseTimestamp "2025-11-04" = some 1762214400000000
      by decide)).2 (by decide),
   ((C10_future_timestamps (show parseTimestamp "2025-11-02" = some 1762041600000000
      by decide)).1 (by decide) (by decide)).2 demoCorp 0 postG rfl⟩

end FeedRec
